import Mathlib

/-!
Verification development for the LinkedIn auto-poster workflow
(`main.py` together with the tools in `src/tools/`).

The Python code is shallowly embedded:
* text is modelled as its list of Unicode code points (`List Nat`), obtained
  from a Lean `String` by `strCodes`; the report texts the code matches
  against are ASCII, where Python's `str.lower` agrees with the ASCII
  lower-casing `lowerCode`;
* Python's `str.count` (non-overlapping occurrences, scanning left to right)
  is `countOcc`, and the `in` containment test is `containsCodes`;
* `datetime` values are modelled as natural-number timestamps (the code only
  compares them and sorts by them);
* network and LLM calls are oracles passed in as function arguments;
* Python's `int((v / t) * 100)` computes in IEEE-754 binary64 floats and
  truncates.  Where the exact numeric value matters, this is embedded
  faithfully by `pyConfidence` (correctly rounded binary64 division and
  multiplication, ties to even, then truncation), encoded in exact
  natural-number fraction arithmetic.  `parseVerification` carries the
  integer-division approximation `v * 100 / t` of the same line, which is
  adequate wherever only the branch structure and the 0..100 range of the
  result are used; `parseVerificationF` is the variant carrying the
  binary64-exact value.
-/

/-- The code points of a string. -/
def strCodes (s : String) : List Nat :=
  s.toList.map Char.toNat

/-- ASCII lower-casing of one code point, the embedding of Python's
`str.lower` on the ASCII texts handled here. -/
def lowerCode (c : Nat) : Nat :=
  if 65 ≤ c ∧ c ≤ 90 then c + 32 else c

/-- Lower-case a whole text. -/
def lowerCodes (l : List Nat) : List Nat :=
  l.map lowerCode

/-- Does `pat` occur at the head of `l`? -/
def leadsWith : List Nat → List Nat → Bool
  | [], _ => true
  | _ :: _, [] => false
  | p :: ps, x :: xs => p = x && leadsWith ps xs

/-- Fuel-driven left-to-right scan counting non-overlapping occurrences of
`pat`; the fuel is an upper bound on the scan steps, each of which consumes
at least one element of the text. -/
def countOccAux (pat : List Nat) : Nat → List Nat → Nat
  | 0, _ => 0
  | _, [] => 0
  | fuel + 1, x :: xs =>
    if leadsWith pat (x :: xs) then
      1 + countOccAux pat fuel (List.drop (pat.length - 1) xs)
    else
      countOccAux pat fuel xs

/-- Number of non-overlapping occurrences of `pat` in `l`, scanning left to
right: the embedding of Python's `text.count(pat)` for non-empty `pat`. -/
def countOcc (pat l : List Nat) : Nat :=
  countOccAux pat l.length l

/-- Substring containment, the embedding of Python's `pat in text`. -/
def containsCodes (pat : List Nat) : List Nat → Bool
  | [] => pat.isEmpty
  | x :: xs => leadsWith pat (x :: xs) || containsCodes pat xs

/-- Remove every occurrence of the code point `c`.  This embeds
`text.replace("**", "").replace("*", "")` with `c` the asterisk: replacing
star pairs and then lone stars with the empty string deletes exactly the
asterisk characters and nothing else. -/
def stripChar (c : Nat) (l : List Nat) : List Nat :=
  l.filter (fun x => decide (x ≠ c))

/-- The structured verdict returned by `step_4_verify_post`
(`main.py` lines 210-214): `passed`/`confidence`/`report`. -/
structure Verdict where
  passed : Bool
  confidence : Nat
  report : String
deriving Repr, DecidableEq

/-- `main.py` line 181: `report_lower = verification_report.lower()`. -/
def reportLower (report : String) : List Nat :=
  lowerCodes (strCodes report)

/-- `main.py` line 190: the lower-cased report with the markdown emphasis
markers `**` and `*` removed, used for claim counting only. -/
def reportClean (report : String) : List Nat :=
  stripChar 42 (reportLower report)

/-- `main.py` line 191: `verified_count = report_clean.count("status: verified")`. -/
def verifiedCount (report : String) : Nat :=
  countOcc (strCodes "status: verified") (reportClean report)

/-- `main.py` line 192: `unverified_count = report_clean.count("status: unverified")`. -/
def unverifiedCount (report : String) : Nat :=
  countOcc (strCodes "status: unverified") (reportClean report)

/-- `main.py` lines 183-186: the preliminary `passed` signal, computed on the
lower-cased report text (markdown emphasis is NOT stripped here). -/
def prelimPassed (report : String) : Bool :=
  containsCodes (strCodes "overall status: passed") (reportLower report) ||
    containsCodes (strCodes "recommendation: publish") (reportLower report) ||
    containsCodes (strCodes "recommendation:\npublish") (reportLower report)

/-- `main.py` lines 193-199: confidence from the claim tally, before the
override, as the integer-division approximation of
`int((verified_count / total_claims) * 100)`.  This approximation is used
only where the branch structure and the 0..100 range of the result matter;
the binary64-exact value of line 197 is `baseConfidenceF` below. -/
def baseConfidence (report : String) : Nat :=
  if 0 < verifiedCount report + unverifiedCount report then
    verifiedCount report * 100 / (verifiedCount report + unverifiedCount report)
  else 0

/-- `step_4_verify_post`, `main.py` lines 180-214: parse the verifier's
free-text report into a verdict.  Lines 201-204 override `passed` and
`confidence` when every counted claim is verified. -/
def parseVerification (report : String) : Verdict :=
  if unverifiedCount report = 0 ∧ 0 < verifiedCount report then
    { passed := true, confidence := 100, report := report }
  else
    { passed := prelimPassed report, confidence := baseConfidence report,
      report := report }

/-- `⌊log2 n⌋` for `n ≥ 1`, computed structurally with the number itself as
recursion fuel (the argument halves each step, so the fuel never runs
out). -/
def bitLenAux : Nat → Nat → Nat
  | 0, _ => 0
  | fuel + 1, n => if n ≤ 1 then 0 else bitLenAux fuel (n / 2) + 1

/-- `⌊log2 n⌋` for `n ≥ 1` (and `0` at `0`). -/
def bitLen (n : Nat) : Nat := bitLenAux n n

/-- Is `2 ^ e ≤ a / b` (exact rational comparison, `b > 0`)? -/
def pow2LeRat (e : Int) (a b : Nat) : Bool :=
  if 0 ≤ e then decide (2 ^ e.toNat * b ≤ a) else decide (b ≤ 2 ^ (-e).toNat * a)

/-- `⌊log2 (a / b)⌋` for `a, b ≥ 1`: the true value lies in
`{bitLen a - bitLen b - 1, bitLen a - bitLen b}`, and one comparison picks
the right one. -/
def log2floorQ (a b : Nat) : Int :=
  if pow2LeRat ((bitLen a : Int) - (bitLen b : Int)) a b then
    (bitLen a : Int) - (bitLen b : Int)
  else
    (bitLen a : Int) - (bitLen b : Int) - 1

/-- The exponent of the IEEE-754 binary64 rounding grid for the positive
value `a / b`: unit in the last place `2 ^ (⌊log2 x⌋ - 52)` for normal
values, clamped at `2 ^ (-1074)` in the subnormal range. -/
def gridExp (a b : Nat) : Int :=
  if log2floorQ a b - 52 ≤ -1074 then -1074 else log2floorQ a b - 52

/-- Numerator of `(a / b) / 2 ^ g` as an exact fraction. -/
def scaledNum (a : Nat) (g : Int) : Nat :=
  if 0 ≤ g then a else a * 2 ^ (-g).toNat

/-- Denominator of `(a / b) / 2 ^ g` as an exact fraction. -/
def scaledDen (b : Nat) (g : Int) : Nat :=
  if 0 ≤ g then b * 2 ^ g.toNat else b

/-- Round the exact fraction `A / B` (with `B > 0`) to the nearest natural
number, ties to the even neighbour. -/
def nearestEvenDiv (A B : Nat) : Nat :=
  if 2 * (A % B) < B then A / B
  else if B < 2 * (A % B) then A / B + 1
  else if (A / B) % 2 = 0 then A / B else A / B + 1

/-- Round the non-negative rational `a / b` (with `b > 0`) to the nearest
IEEE-754 binary64 value, ties to even, returned as an exact fraction
(numerator, denominator).  Subnormals are handled by the grid clamp in
`gridExp`; overflow to infinity cannot occur at the magnitudes arising
here (all values lie in `[0, 100]`).  This models CPython float arithmetic,
whose `/` and `*` are correctly rounded binary64 operations. -/
def roundDoubleFrac (a b : Nat) : Nat × Nat :=
  if a = 0 then (0, 1)
  else if 0 ≤ gridExp a b then
    (nearestEvenDiv (scaledNum a (gridExp a b)) (scaledDen b (gridExp a b))
      * 2 ^ (gridExp a b).toNat, 1)
  else
    (nearestEvenDiv (scaledNum a (gridExp a b)) (scaledDen b (gridExp a b)),
      2 ^ (-(gridExp a b)).toNat)

/-- The binary64 value of `verified_count / total_claims`
(`main.py` line 197, the float division). -/
def ratioDouble (v t : Nat) : Nat × Nat := roundDoubleFrac v t

/-- The binary64 value of `(verified_count / total_claims) * 100`
(`main.py` line 197, the float multiplication; `100` is exactly
representable, so the exact product is formed and then rounded). -/
def percentDouble (v t : Nat) : Nat × Nat :=
  roundDoubleFrac ((ratioDouble v t).1 * 100) (ratioDouble v t).2

/-- `int((verified_count / total_claims) * 100)` of `main.py` line 197 with
exact binary64 semantics: `int()` truncates toward zero, which on these
non-negative values is the floor of the final double. -/
def pyConfidence (v t : Nat) : Nat := (percentDouble v t).1 / (percentDouble v t).2

/-- `main.py` lines 193-199 with exact binary64 semantics: the
pre-override confidence the program computes. -/
def baseConfidenceF (report : String) : Nat :=
  if 0 < verifiedCount report + unverifiedCount report then
    pyConfidence (verifiedCount report) (verifiedCount report + unverifiedCount report)
  else 0

/-- `step_4_verify_post` (`main.py` lines 180-214) with the binary64-exact
confidence of `baseConfidenceF`; identical to `parseVerification` except
that the truncated float value replaces the integer-division
approximation. -/
def parseVerificationF (report : String) : Verdict :=
  if unverifiedCount report = 0 ∧ 0 < verifiedCount report then
    { passed := true, confidence := 100, report := report }
  else
    { passed := prelimPassed report, confidence := baseConfidenceF report,
      report := report }

/-- `main.py` line 345: `max_retries = 3`. -/
def maxRetries : Nat := 3

/-- The loop state of the retry loop in `run_workflow` (`main.py`
lines 344-369): the current draft, the current verdict and `retry_count`,
which counts exactly the rewrite calls issued so far.  `verifyCalls` is a
ghost counter of the verification calls issued so far (one happens before
the loop, one per iteration). -/
structure LoopState where
  draft : String
  verdict : Verdict
  retryCount : Nat
  verifyCalls : Nat
deriving Repr, DecidableEq

/-- One pass of the `while` loop of `main.py` lines 349-369, with the
remaining retry budget `maxRetries - retry_count` made explicit as fuel.
`vf` maps a draft to the verifier's report text (the `call_agent`
invocation inside `step_4_verify_post`); `rw` maps a draft and a report to
the rewritten draft (`step_4b_rewrite_verified_only`). -/
def loopGo (vf : String → String) (rw : String → String → String) :
    Nat → LoopState → LoopState
  | 0, st => st
  | fuel + 1, st =>
    if st.verdict.passed = false ∨ st.verdict.confidence < 100 then
      let draft2 := rw st.draft st.verdict.report
      let v2 := parseVerification (vf draft2)
      if v2.confidence = 100 then
        { draft := draft2, verdict := v2, retryCount := st.retryCount + 1,
          verifyCalls := st.verifyCalls + 1 }
      else
        loopGo vf rw fuel
          { draft := draft2, verdict := v2, retryCount := st.retryCount + 1,
            verifyCalls := st.verifyCalls + 1 }
    else st

/-- The convergence loop of `run_workflow` (`main.py` lines 341-369): an
initial verification of the draft, then at most `maxRetries` rewrite-and-
re-verify iterations, exiting early when the verdict is accepted or the
re-verification reaches confidence 100. -/
def runConvergence (vf : String → String) (rw : String → String → String)
    (draft0 : String) : LoopState :=
  loopGo vf rw maxRetries
    { draft := draft0, verdict := parseVerification (vf draft0),
      retryCount := 0, verifyCalls := 1 }

/-- The profile object returned by LinkedIn's `userinfo` endpoint, as read
by `get_user_profile` (`linkedin_poster.py` lines 14-33); only the fields
the code looks up are modelled, each optional because the code uses
`profile.get`. -/
structure LinkedInProfile where
  sub : Option String
  name : Option String
  email : Option String
deriving Repr, DecidableEq

/-- Result of `validate_linkedin_token` (`linkedin_poster.py`
lines 115-133). -/
structure TokenValidation where
  valid : Bool
  error : Option String
deriving Repr, DecidableEq

/-- `validate_linkedin_token` (`linkedin_poster.py` lines 115-133).
`accessToken` is the token argument after the env-var fallback (`none`
models a missing/empty token, which is falsy in Python); `profileResult`
is the outcome of the `get_user_profile` network call (`none` models a
request failure). -/
def validate_linkedin_token (accessToken : Option String)
    (profileResult : Option LinkedInProfile) : TokenValidation :=
  match accessToken with
  | none => { valid := false, error := some "No access token provided" }
  | some _ =>
    match profileResult with
    | some _ => { valid := true, error := none }
    | none => { valid := false, error := some "Token is invalid or expired" }

/-- Result of `post_to_linkedin` / `step_5_post_to_linkedin`.
`publishRequestSent` is a ghost flag recording whether the `ugcPosts`
publish request of `linkedin_poster.py` lines 91-96 was issued. -/
structure PostResult where
  success : Bool
  publishRequestSent : Bool
  error : Option String
deriving Repr, DecidableEq

/-- `post_to_linkedin` (`linkedin_poster.py` lines 36-112): checks the
token, fetches the user profile and reads its `sub` field, and only then
issues the publish request; `postAccepted` models whether that request
returns HTTP 201. -/
def post_to_linkedin (accessToken : Option String)
    (profileResult : Option LinkedInProfile) (postAccepted : Bool) : PostResult :=
  match accessToken with
  | none =>
    { success := false, publishRequestSent := false,
      error := some "LINKEDIN_ACCESS_TOKEN not set" }
  | some _ =>
    match profileResult with
    | none =>
      { success := false, publishRequestSent := false,
        error := some "Failed to fetch user profile" }
    | some profile =>
      match profile.sub with
      | none =>
        { success := false, publishRequestSent := false,
          error := some "Could not get user ID from profile" }
      | some _ =>
        if postAccepted then
          { success := true, publishRequestSent := true, error := none }
        else
          { success := false, publishRequestSent := true,
            error := some "HTTP error" }

/-- `step_5_post_to_linkedin` (`main.py` lines 259-280): in dry-run mode
the content is only printed and the step reports success without touching
the network; otherwise it delegates to `post_to_linkedin` (and `main.py`
lines 274-278 print the failure message when `success` is false). -/
def step_5_post_to_linkedin (dryRun : Bool) (accessToken : Option String)
    (profileResult : Option LinkedInProfile) (postAccepted : Bool) : PostResult :=
  if dryRun then
    { success := true, publishRequestSent := false, error := none }
  else
    post_to_linkedin accessToken profileResult postAccepted

/-- The tail of `run_workflow` after the convergence loop (`main.py`
lines 371-396): `savedDraft` records the draft/report pair written to the
timestamped drafts file, `publishCalls` counts calls of
`post_to_linkedin` (step 5 performs one exactly when not in dry-run
mode). -/
structure RunTail where
  status : String
  savedDraft : Option (String × String)
  finalConfidence : Option Nat
  publishCalls : Nat
deriving Repr, DecidableEq

/-- `main.py` lines 371-396: if the final confidence is below 100, persist
the final draft and report and return `draft_saved`; otherwise hand the
draft to step 5 and derive the terminal status from its result. -/
def finalizeRun (st : LoopState) (dryRun : Bool) (accessToken : Option String)
    (profileResult : Option LinkedInProfile) (postAccepted : Bool) : RunTail :=
  if st.verdict.confidence < 100 then
    { status := "draft_saved", savedDraft := some (st.draft, st.verdict.report),
      finalConfidence := some st.verdict.confidence, publishCalls := 0 }
  else
    let post := step_5_post_to_linkedin dryRun accessToken profileResult postAccepted
    { status := if post.success then "success" else "failed",
      savedDraft := none, finalConfidence := none,
      publishCalls := if dryRun then 0 else 1 }

/-- A collected news article (`rss_fetcher.py` lines 53-59,
`gnews_fetcher.py` lines 69-75): title, summary, URL, publication date and
source name.  Dates are natural-number timestamps; the code only compares
them and sorts by them. -/
structure NewsItem where
  title : String
  summary : String
  url : String
  date : Nat
  source : String
deriving Repr, DecidableEq

/-- One RSS feed entry as consumed by `fetch_rss_feeds`
(`rss_fetcher.py` lines 48-60). -/
structure RssEntry where
  title : String
  summary : String
  link : String
  date : Nat
deriving Repr, DecidableEq

/-- "`a` is at least as recent as `b`": the descending-date order used by
`articles.sort(key=..., reverse=True)` in `rss_fetcher.py` line 67. -/
def dateGe (a b : NewsItem) : Prop :=
  b.date ≤ a.date

instance : DecidableRel dateGe := fun a b => Nat.decLe b.date a.date

instance : IsTotal NewsItem dateGe :=
  ⟨fun a b => Nat.le_total b.date a.date⟩

instance : IsTrans NewsItem dateGe :=
  ⟨fun _ _ _ h h' => Nat.le_trans h' h⟩

/-- `fetch_rss_feeds` (`rss_fetcher.py` lines 31-69): per feed, keep the
entries whose date is at least the cutoff (`pub_date >= cutoff_time`),
tag them with the feed's source name, then sort everything by date, newest
first.  The input is the parsed feeds, source name paired with entries;
`cutoff` stands for `datetime.now() - timedelta(hours=hours_back)`. -/
def fetch_rss_feeds (feeds : List (String × List RssEntry)) (cutoff : Nat) :
    List NewsItem :=
  let articles := (feeds.map (fun feed =>
    (feed.2.filter (fun e => decide (cutoff ≤ e.date))).map (fun e =>
      { title := e.title, summary := e.summary, url := e.link,
        date := e.date, source := feed.1 : NewsItem }))).flatten
  List.insertionSort dateGe articles

/-- The `seen_urls` deduplication loop of `fetch_gnews`
(`gnews_fetcher.py` lines 61-76): keep an item only when its URL has not
been seen before (the seen set is modelled as a list). -/
def gnewsDedup : List NewsItem → List String → List NewsItem
  | [], _ => []
  | a :: rest, seen =>
    if a.url ∈ seen then gnewsDedup rest seen
    else a :: gnewsDedup rest (a.url :: seen)

/-- `fetch_gnews` (`gnews_fetcher.py` lines 25-83): the API response items
(already shaped as `NewsItem`s) de-duplicated by URL within this source. -/
def fetch_gnews (raw : List NewsItem) : List NewsItem :=
  gnewsDedup raw []

/-- `main.py` line 69 (and line 323): `all_articles = rss_articles +
gnews_articles` — plain concatenation of the two source lists. -/
def step1Articles (feeds : List (String × List RssEntry)) (cutoff : Nat)
    (gnewsRaw : List NewsItem) : List NewsItem :=
  fetch_rss_feeds feeds cutoff ++ fetch_gnews gnewsRaw

/-- The per-article formatting loop of `step_1_fetch_news`
(`main.py` lines 77-83), carrying the 1-based article index. -/
def formatArticlesFrom : Nat → List NewsItem → String
  | _, [] => ""
  | i, a :: rest =>
    "--- Article " ++ toString i ++ " ---\n" ++
      "Source: " ++ a.source ++ "\n" ++
      "Title: " ++ a.title ++ "\n" ++
      "Date: " ++ toString a.date ++ "\n" ++
      "URL: " ++ a.url ++ "\n" ++
      "Summary: " ++ a.summary.take 1000 ++ "\n\n" ++
      formatArticlesFrom (i + 1) rest

/-- `step_1_fetch_news` (`main.py` lines 52-85): collect both sources,
return `none` when nothing was found (`return None`), otherwise the text
block handed to the curation agent. -/
def step_1_fetch_news (feeds : List (String × List RssEntry)) (cutoff : Nat)
    (gnewsRaw : List NewsItem) : Option String :=
  let allArticles := step1Articles feeds cutoff gnewsRaw
  if allArticles.isEmpty then none
  else
    some ("Found " ++ toString allArticles.length ++ " articles:\n\n" ++
      formatArticlesFrom 1 allArticles)

/-- Outcome of one whole `run_workflow` invocation, with ghost counters for
the generative calls (curation, writing, verification, rewriting) and the
publish calls. -/
structure RunResult where
  status : String
  curateCalls : Nat
  writeCalls : Nat
  verifyCalls : Nat
  rewriteCalls : Nat
  publishCalls : Nat
  savedDraft : Option (String × String)
  finalConfidence : Option Nat
deriving Repr, DecidableEq

/-- `run_workflow` (`main.py` lines 283-402).  The generative steps are
oracles: `curateOf` (step 2), `fetchFullOf` (step 2b, a network fetch, not
a generative call), `writeOf` (step 3), `vf` (the verifier report of
step 4, as a function of the draft — the source material is fixed for the
run) and `rw` (step 4b).  With no collected articles the run stops at
step 1 with status `skipped`; otherwise it curates, writes, runs the
convergence loop unless `skipVerification`, and finishes via
`finalizeRun`/step 5. -/
def run_workflow (feeds : List (String × List RssEntry)) (cutoff : Nat)
    (gnewsRaw : List NewsItem) (curateOf fetchFullOf writeOf : String → String)
    (vf : String → String) (rw : String → String → String)
    (skipVerification dryRun : Bool) (accessToken : Option String)
    (profileResult : Option LinkedInProfile) (postAccepted : Bool) : RunResult :=
  match step_1_fetch_news feeds cutoff gnewsRaw with
  | none =>
    { status := "skipped", curateCalls := 0, writeCalls := 0, verifyCalls := 0,
      rewriteCalls := 0, publishCalls := 0, savedDraft := none,
      finalConfidence := none }
  | some articlesText =>
    let curated := curateOf articlesText
    let enhanced := fetchFullOf curated
    let draft := writeOf enhanced
    if skipVerification then
      let post := step_5_post_to_linkedin dryRun accessToken profileResult postAccepted
      { status := if post.success then "success" else "failed",
        curateCalls := 1, writeCalls := 1, verifyCalls := 0, rewriteCalls := 0,
        publishCalls := if dryRun then 0 else 1, savedDraft := none,
        finalConfidence := none }
    else
      let st := runConvergence vf rw draft
      let tail := finalizeRun st dryRun accessToken profileResult postAccepted
      { status := tail.status, curateCalls := 1, writeCalls := 1,
        verifyCalls := st.verifyCalls, rewriteCalls := st.retryCount,
        publishCalls := tail.publishCalls, savedDraft := tail.savedDraft,
        finalConfidence := tail.finalConfidence }

/-- Whatever the report, the parsed confidence never exceeds 100. -/
lemma parseVerification_confidence_le (s : String) :
    (parseVerification s).confidence ≤ 100 := by
  unfold parseVerification
  split
  · exact Nat.le_refl 100
  · show baseConfidence s ≤ 100
    unfold baseConfidence
    split
    · next h =>
      calc verifiedCount s * 100 / (verifiedCount s + unverifiedCount s)
          ≤ (verifiedCount s + unverifiedCount s) * 100 /
              (verifiedCount s + unverifiedCount s) :=
            Nat.div_le_div_right
              (Nat.mul_le_mul_right 100 (Nat.le_add_right _ _))
        _ = 100 := Nat.mul_div_cancel_left 100 h
    · exact Nat.zero_le 100

/-- A parsed confidence of 100 forces the override branch, hence
`passed`. -/
lemma parseVerification_passed_of_conf (s : String)
    (h : (parseVerification s).confidence = 100) :
    (parseVerification s).passed = true := by
  by_cases hov : unverifiedCount s = 0 ∧ 0 < verifiedCount s
  · simp [parseVerification, hov]
  · exfalso
    simp only [parseVerification, hov, if_false] at h
    unfold baseConfidence at h
    split at h
    · next htot =>
      have h100 : 100 * (verifiedCount s + unverifiedCount s)
          ≤ verifiedCount s * 100 :=
        (Nat.le_div_iff_mul_le htot).mp (Nat.le_of_eq h.symm)
      have hu : unverifiedCount s = 0 := by omega
      exact hov ⟨hu, by omega⟩
    · omega

/-- Invariant of the retry loop: the retry counter grows by at most the
remaining budget, confidence stays in range, the verification counter grows
in lock step with the retry counter, and the loop can only stop at
confidence 100 or by spending the whole budget. -/
lemma loopGo_spec (vf : String → String) (rw : String → String → String) :
    ∀ (fuel : Nat) (st : LoopState), st.verdict.confidence ≤ 100 →
      (loopGo vf rw fuel st).retryCount ≤ st.retryCount + fuel ∧
      (loopGo vf rw fuel st).verdict.confidence ≤ 100 ∧
      (loopGo vf rw fuel st).verifyCalls + st.retryCount
        = st.verifyCalls + (loopGo vf rw fuel st).retryCount ∧
      ((loopGo vf rw fuel st).verdict.confidence = 100 ∨
        (loopGo vf rw fuel st).retryCount = st.retryCount + fuel) := by
  intro fuel
  induction fuel with
  | zero =>
    intro st h
    exact ⟨Nat.le_refl _, h, rfl, Or.inr rfl⟩
  | succ fuel ih =>
    intro st h
    unfold loopGo
    split
    · next hcond =>
      dsimp only
      split
      · next h100 =>
        dsimp only
        exact ⟨by omega, by omega, by omega, Or.inl h100⟩
      · next h100 =>
        have hconf : (parseVerification
            (vf (rw st.draft st.verdict.report))).confidence ≤ 100 :=
          parseVerification_confidence_le _
        obtain ⟨h1, h2, h3, h4⟩ := ih
          { draft := rw st.draft st.verdict.report,
            verdict := parseVerification (vf (rw st.draft st.verdict.report)),
            retryCount := st.retryCount + 1,
            verifyCalls := st.verifyCalls + 1 } hconf
        dsimp only at h1 h3 h4
        refine ⟨by omega, h2, by omega, ?_⟩
        rcases h4 with h4 | h4
        · exact Or.inl h4
        · exact Or.inr (by omega)
    · next hcond =>
      push_neg at hcond
      refine ⟨Nat.le_add_right _ _, h, rfl, Or.inl ?_⟩
      have := hcond.2
      omega

/-- The de-duplication fold of `fetch_gnews` yields pairwise-distinct URLs
and never emits a URL from the seen set. -/
lemma gnewsDedup_nodup : ∀ (raw : List NewsItem) (seen : List String),
    ((gnewsDedup raw seen).map NewsItem.url).Nodup ∧
    ∀ a ∈ gnewsDedup raw seen, a.url ∉ seen := by
  intro raw
  induction raw with
  | nil => intro seen; simp [gnewsDedup]
  | cons a rest ih =>
    intro seen
    unfold gnewsDedup
    split
    · exact ⟨(ih seen).1, fun b hb => (ih seen).2 b hb⟩
    · next hnotin =>
      refine ⟨?_, ?_⟩
      · simp only [List.map_cons, List.nodup_cons]
        refine ⟨?_, (ih (a.url :: seen)).1⟩
        intro hmem
        obtain ⟨b, hb, hurl⟩ := List.mem_map.mp hmem
        exact (ih (a.url :: seen)).2 b hb (hurl ▸ List.mem_cons_self _ _)
      · intro b hb
        rcases List.mem_cons.mp hb with rfl | hb'
        · exact hnotin
        · intro hseen
          exact (ih (a.url :: seen)).2 b hb' (List.mem_cons_of_mem _ hseen)

/-- `⌊log2 (v / v)⌋ = 0`: the two bit lengths cancel and the remaining
comparison is `v ≤ v`. -/
lemma log2floorQ_self (v : Nat) : log2floorQ v v = 0 := by
  unfold log2floorQ pow2LeRat
  rw [sub_self]
  simp

/-- The rounding grid for `v / v` is the one of the binade `[1, 2)`. -/
lemma gridExp_self (v : Nat) : gridExp v v = -52 := by
  unfold gridExp
  rw [log2floorQ_self v]
  norm_num

/-- `v / v` with `v > 0` is exactly `1`, which binary64 represents as
`2 ^ 52 / 2 ^ 52` on its grid. -/
lemma roundDoubleFrac_self (v : Nat) (hv : 0 < v) :
    roundDoubleFrac v v = (2 ^ 52, 2 ^ 52) := by
  unfold roundDoubleFrac
  rw [if_neg (Nat.pos_iff_ne_zero.mp hv), gridExp_self v,
    if_neg (by decide : ¬ (0 : Int) ≤ -52)]
  unfold scaledNum scaledDen nearestEvenDiv
  rw [if_neg (by decide : ¬ (0 : Int) ≤ -52),
    if_neg (by decide : ¬ (0 : Int) ≤ -52)]
  norm_num [Nat.mul_mod_right, Nat.mul_div_cancel_left, hv]
  decide

/-- With every counted claim verified, the float pipeline yields exactly
100: `v / v = 1.0`, `1.0 * 100 = 100.0`, `int(100.0) = 100`. -/
lemma pyConfidence_self (v : Nat) (hv : 0 < v) : pyConfidence v v = 100 := by
  unfold pyConfidence percentDouble ratioDouble
  rw [roundDoubleFrac_self v hv]
  decide

/-- The binary64 truncation of `main.py` line 197 can fall below the exact
floor of `100 * v / t`: at 29 verified and 71 unverified claims the program
computes 28 while `⌊2900 / 100⌋ = 29`.  (CPython: `int((29/100)*100)` is
`28`.)  This is why the exact-floor approximation `baseConfidence` is not
used where the numeric confidence value itself is claimed. -/
lemma pyConfidence_below_floor :
    pyConfidence 29 100 = 28 ∧ 29 * 100 / (29 + 71) = 29 := by
  decide

/-- C1 (counterexample): on the report with two "Status: VERIFIED" markers
and one "Status: UNVERIFIED" marker, the code computes confidence 66
(binary64 `(2/3)*100 = 66.66666666666666`, truncated), not the claimed
round(200/3) = 67. -/
theorem C1_counterexample :
    (parseVerificationF
      "Status: VERIFIED\nStatus: VERIFIED\nStatus: UNVERIFIED\nOverall Status: FAILED").confidence
      = 66 ∧
    ¬ (parseVerificationF
      "Status: VERIFIED\nStatus: VERIFIED\nStatus: UNVERIFIED\nOverall Status: FAILED").confidence
      = 67 := by
  decide

/-- C1 (amended): for every report whose verified + unverified marker count
is positive, the parsed confidence is the binary64 truncation
`int((verifiedCount / total) * 100)` — truncation of the correctly rounded
float product, not rounding of the exact ratio; in particular the
two-verified/one-unverified scenario yields 66, not 67. -/
theorem C1_confidence_truncates (s : String)
    (h : 0 < verifiedCount s + unverifiedCount s) :
    (parseVerificationF s).confidence
      = pyConfidence (verifiedCount s) (verifiedCount s + unverifiedCount s) := by
  by_cases hov : unverifiedCount s = 0 ∧ 0 < verifiedCount s
  · obtain ⟨hu, hv⟩ := hov
    unfold parseVerificationF
    rw [if_pos ⟨hu, hv⟩]
    dsimp only
    rw [hu, Nat.add_zero]
    exact (pyConfidence_self (verifiedCount s) hv).symm
  · unfold parseVerificationF
    rw [if_neg hov]
    dsimp only
    unfold baseConfidenceF
    rw [if_pos h]

/-- Witness for C1 (amended) at the spec's own scenario report, where the
truncated value is 66. -/
theorem C1_confidence_truncates_witness :
    0 < verifiedCount
        "Status: VERIFIED\nStatus: VERIFIED\nStatus: UNVERIFIED\nOverall Status: FAILED"
      + unverifiedCount
        "Status: VERIFIED\nStatus: VERIFIED\nStatus: UNVERIFIED\nOverall Status: FAILED" ∧
    (parseVerificationF
      "Status: VERIFIED\nStatus: VERIFIED\nStatus: UNVERIFIED\nOverall Status: FAILED").confidence
      = pyConfidence
          (verifiedCount
            "Status: VERIFIED\nStatus: VERIFIED\nStatus: UNVERIFIED\nOverall Status: FAILED")
          (verifiedCount
            "Status: VERIFIED\nStatus: VERIFIED\nStatus: UNVERIFIED\nOverall Status: FAILED"
          + unverifiedCount
            "Status: VERIFIED\nStatus: VERIFIED\nStatus: UNVERIFIED\nOverall Status: FAILED") ∧
    pyConfidence
        (verifiedCount
          "Status: VERIFIED\nStatus: VERIFIED\nStatus: UNVERIFIED\nOverall Status: FAILED")
        (verifiedCount
          "Status: VERIFIED\nStatus: VERIFIED\nStatus: UNVERIFIED\nOverall Status: FAILED"
        + unverifiedCount
          "Status: VERIFIED\nStatus: VERIFIED\nStatus: UNVERIFIED\nOverall Status: FAILED")
      = 66 :=
  ⟨by decide, C1_confidence_truncates _ (by decide), by decide⟩

/-- C2: any report whose cleaned text has at least one "status: verified"
marker and no "status: unverified" marker parses to an accepted verdict at
confidence 100, whatever other FAILED/REVISE phrasing it contains. -/
theorem C2_all_verified_overrides (s : String) (hu : unverifiedCount s = 0)
    (hv : 0 < verifiedCount s) :
    (parseVerification s).passed = true ∧
    (parseVerification s).confidence = 100 := by
  simp [parseVerification, hu, hv]

/-- Witness for C2 at the spec's scenario report, whose text also says
"Overall Status: FAILED". -/
theorem C2_all_verified_overrides_witness :
    unverifiedCount "Status: VERIFIED\nOverall Status: FAILED" = 0 ∧
    0 < verifiedCount "Status: VERIFIED\nOverall Status: FAILED" ∧
    (parseVerification "Status: VERIFIED\nOverall Status: FAILED").passed = true ∧
    (parseVerification "Status: VERIFIED\nOverall Status: FAILED").confidence = 100 :=
  ⟨by decide, by decide,
    C2_all_verified_overrides "Status: VERIFIED\nOverall Status: FAILED"
      (by decide) (by decide)⟩

/-- C3: with `maxRetries = 3` the convergence loop issues at most 3 rewrite
calls and at most 4 verification calls (exactly one more verification than
rewrites), and it can only stop with confidence 100 (accepted) or with the
whole retry budget spent (exhausted) — in particular it always
terminates. -/
theorem C3_loop_bounded (vf : String → String) (rw : String → String → String)
    (draft0 : String) :
    (runConvergence vf rw draft0).retryCount ≤ maxRetries ∧
    (runConvergence vf rw draft0).verifyCalls
      = (runConvergence vf rw draft0).retryCount + 1 ∧
    (runConvergence vf rw draft0).verifyCalls ≤ maxRetries + 1 ∧
    ((runConvergence vf rw draft0).verdict.confidence = 100 ∨
      (runConvergence vf rw draft0).retryCount = maxRetries) := by
  have h0 : (parseVerification (vf draft0)).confidence ≤ 100 :=
    parseVerification_confidence_le _
  obtain ⟨h1, _h2, h3, h4⟩ := loopGo_spec vf rw maxRetries
    { draft := draft0, verdict := parseVerification (vf draft0),
      retryCount := 0, verifyCalls := 1 } h0
  dsimp only at h1 h3 h4
  unfold runConvergence
  exact ⟨by omega, by omega, by omega, h4⟩

/-- C4 (counterexample): a report reading "Overall Status: **PASSED**"
(emphasis around PASSED) does NOT raise the preliminary acceptance signal,
and the full parse also rejects it — the preliminary check never sees the
stripped text. -/
theorem C4_counterexample :
    prelimPassed "Overall Status: **PASSED**" = false ∧
    (parseVerification "Overall Status: **PASSED**").passed = false := by
  decide

/-- C4 (amended): the preliminary acceptance signal is computed on the
lower-cased report text only — emphasis markup is stripped solely for the
claim-marker counting — so detection of the affirmative phrases is
case-insensitive but not formatting-insensitive; whenever the signal does
fire, the parsed verdict is accepted. -/
theorem C4_prelim_lowercase_only (s : String) (h : prelimPassed s = true) :
    (parseVerification s).passed = true := by
  by_cases hov : unverifiedCount s = 0 ∧ 0 < verifiedCount s
  · simp [parseVerification, hov]
  · simp [parseVerification, hov, h]

/-- Witness for C4 (amended): without emphasis markup the phrase is
detected and the report is accepted. -/
theorem C4_prelim_lowercase_only_witness :
    prelimPassed "Overall Status: PASSED" = true ∧
    (parseVerification "Overall Status: PASSED").passed = true :=
  ⟨by decide, C4_prelim_lowercase_only "Overall Status: PASSED" (by decide)⟩

/-- C5: a report with zero verified and zero unverified claim markers but an
affirmative phrase parses to an accepted verdict at confidence 0 — the
high-confidence override needs a positive verified count. -/
theorem C5_zero_claims_accepted_at_zero (s : String)
    (hv : verifiedCount s = 0) (hu : unverifiedCount s = 0)
    (hp : prelimPassed s = true) :
    (parseVerification s).passed = true ∧
    (parseVerification s).confidence = 0 := by
  simp [parseVerification, hv, hu, hp, baseConfidence]

/-- Witness for C5 at a plain "Overall Status: PASSED" report. -/
theorem C5_zero_claims_accepted_at_zero_witness :
    verifiedCount "Overall Status: PASSED" = 0 ∧
    unverifiedCount "Overall Status: PASSED" = 0 ∧
    prelimPassed "Overall Status: PASSED" = true ∧
    (parseVerification "Overall Status: PASSED").passed = true ∧
    (parseVerification "Overall Status: PASSED").confidence = 0 :=
  ⟨by decide, by decide, by decide,
    C5_zero_claims_accepted_at_zero "Overall Status: PASSED"
      (by decide) (by decide) (by decide)⟩

/-- C6: whenever the convergence loop ends with confidence below 100, the
workflow tail persists the final draft together with the final verification
report, returns status "draft_saved" carrying that sub-100 confidence, and
performs no publish call. -/
theorem C6_exhausted_saves_draft (vf : String → String)
    (rw : String → String → String) (draft0 : String) (dryRun : Bool)
    (accessToken : Option String) (profileResult : Option LinkedInProfile)
    (postAccepted : Bool)
    (h : (runConvergence vf rw draft0).verdict.confidence < 100) :
    finalizeRun (runConvergence vf rw draft0) dryRun accessToken profileResult
        postAccepted
      = { status := "draft_saved",
          savedDraft := some ((runConvergence vf rw draft0).draft,
            (runConvergence vf rw draft0).verdict.report),
          finalConfidence := some (runConvergence vf rw draft0).verdict.confidence,
          publishCalls := 0 } := by
  simp [finalizeRun, h]

/-- Witness for C6: a verifier that always answers "Status: UNVERIFIED"
never converges, and the run ends in `draft_saved` without publishing. -/
theorem C6_exhausted_saves_draft_witness :
    (runConvergence (fun _ => "Status: UNVERIFIED") (fun _ _ => "d2") "d0").verdict.confidence < 100 ∧
    finalizeRun (runConvergence (fun _ => "Status: UNVERIFIED") (fun _ _ => "d2") "d0")
        false (some "tok") (some { sub := some "id", name := none, email := none }) true
      = { status := "draft_saved",
          savedDraft := some ((runConvergence (fun _ => "Status: UNVERIFIED") (fun _ _ => "d2") "d0").draft,
            (runConvergence (fun _ => "Status: UNVERIFIED") (fun _ _ => "d2") "d0").verdict.report),
          finalConfidence := some (runConvergence (fun _ => "Status: UNVERIFIED") (fun _ _ => "d2") "d0").verdict.confidence,
          publishCalls := 0 } :=
  ⟨by decide,
    C6_exhausted_saves_draft (fun _ => "Status: UNVERIFIED") (fun _ _ => "d2")
      "d0" false (some "tok") (some { sub := some "id", name := none, email := none })
      true (by decide)⟩

/-- C7: when step 1 collects zero news items the run ends with status
"skipped" and with zero curation, writing, verification, rewrite and
publish calls. -/
theorem C7_empty_input_skips (feeds : List (String × List RssEntry))
    (cutoff : Nat) (gnewsRaw : List NewsItem)
    (curateOf fetchFullOf writeOf : String → String) (vf : String → String)
    (rw : String → String → String) (skipVerification dryRun : Bool)
    (accessToken : Option String) (profileResult : Option LinkedInProfile)
    (postAccepted : Bool) (h : step1Articles feeds cutoff gnewsRaw = []) :
    run_workflow feeds cutoff gnewsRaw curateOf fetchFullOf writeOf vf rw
        skipVerification dryRun accessToken profileResult postAccepted
      = { status := "skipped", curateCalls := 0, writeCalls := 0,
          verifyCalls := 0, rewriteCalls := 0, publishCalls := 0,
          savedDraft := none, finalConfidence := none } := by
  unfold run_workflow step_1_fetch_news
  rw [h]
  rfl

/-- Witness for C7 with no feeds and no API items at all. -/
theorem C7_empty_input_skips_witness :
    step1Articles [] 0 [] = [] ∧
    run_workflow [] 0 [] id id id id (fun d _ => d) true true none none true
      = { status := "skipped", curateCalls := 0, writeCalls := 0,
          verifyCalls := 0, rewriteCalls := 0, publishCalls := 0,
          savedDraft := none, finalConfidence := none } :=
  ⟨by decide,
    C7_empty_input_skips [] 0 [] id id id id (fun d _ => d) true true none none
      true (by decide)⟩

/-- C8: in live (non-dry-run) mode, whenever the credential validation of
`validate_linkedin_token` would report `valid = false` (missing token or
failed profile fetch), step 5 never issues the publish request and instead
surfaces a failure with an error message. -/
theorem C8_invalid_credential_blocks_publish (accessToken : Option String)
    (profileResult : Option LinkedInProfile) (postAccepted : Bool)
    (h : (validate_linkedin_token accessToken profileResult).valid = false) :
    (step_5_post_to_linkedin false accessToken profileResult postAccepted).publishRequestSent
      = false ∧
    (step_5_post_to_linkedin false accessToken profileResult postAccepted).success
      = false ∧
    (step_5_post_to_linkedin false accessToken profileResult postAccepted).error.isSome
      = true := by
  cases accessToken with
  | none => simp [step_5_post_to_linkedin, post_to_linkedin]
  | some tok =>
    cases profileResult with
    | none => simp [step_5_post_to_linkedin, post_to_linkedin]
    | some p => simp [validate_linkedin_token] at h

/-- Witness for C8 with a missing access token. -/
theorem C8_invalid_credential_blocks_publish_witness :
    (validate_linkedin_token none none).valid = false ∧
    (step_5_post_to_linkedin false none none true).publishRequestSent = false ∧
    (step_5_post_to_linkedin false none none true).success = false ∧
    (step_5_post_to_linkedin false none none true).error.isSome = true :=
  ⟨by decide, C8_invalid_credential_blocks_publish none none true (by decide)⟩

/-- C9 (counterexample): an RSS article and a GNews article sharing URL "u"
both survive into the combined step-1 list, and the list is not ordered
newest first (the RSS item, dated 1, precedes the GNews item, dated 2). -/
theorem C9_counterexample :
    ((step1Articles [("OpenAI", [{ title := "A", summary := "sa", link := "u", date := 1 }])]
        0 [{ title := "B", summary := "sb", url := "u", date := 2, source := "GNews" }]).map
      NewsItem.url) = ["u", "u"] ∧
    ¬ ((step1Articles [("OpenAI", [{ title := "A", summary := "sa", link := "u", date := 1 }])]
        0 [{ title := "B", summary := "sb", url := "u", date := 2, source := "GNews" }]).map
      NewsItem.url).Nodup ∧
    ¬ List.Sorted dateGe
      (step1Articles [("OpenAI", [{ title := "A", summary := "sa", link := "u", date := 1 }])]
        0 [{ title := "B", summary := "sb", url := "u", date := 2, source := "GNews" }]) := by
  decide

/-- C9 (amended): the list handed to curation is the plain concatenation of
the RSS batch and the GNews batch; only the RSS batch is sorted newest
first and only the GNews batch is de-duplicated by URL (within itself), so
cross-source URL duplicates and out-of-order dates can survive. -/
theorem C9_per_source_guarantees (feeds : List (String × List RssEntry))
    (cutoff : Nat) (raw : List NewsItem) :
    step1Articles feeds cutoff raw
      = fetch_rss_feeds feeds cutoff ++ fetch_gnews raw ∧
    List.Sorted dateGe (fetch_rss_feeds feeds cutoff) ∧
    ((fetch_gnews raw).map NewsItem.url).Nodup := by
  refine ⟨rfl, ?_, (gnewsDedup_nodup raw []).1⟩
  unfold fetch_rss_feeds
  exact List.sorted_insertionSort dateGe _

/-- C10: a parsed confidence of 100 always comes with `passed = true`, so
the loop's continuation test "not passed, or confidence < 100" is
equivalent to "confidence < 100", and a verdict with `passed = false` at
confidence 100 cannot be produced. -/
theorem C10_confidence_100_implies_passed (s : String) :
    ((parseVerification s).confidence = 100 →
      (parseVerification s).passed = true) ∧
    (((parseVerification s).passed = false ∨
        (parseVerification s).confidence < 100) ↔
      (parseVerification s).confidence < 100) := by
  have hle := parseVerification_confidence_le s
  refine ⟨parseVerification_passed_of_conf s, ?_, Or.inr⟩
  rintro (hf | hl)
  · rcases Nat.lt_or_ge (parseVerification s).confidence 100 with hlt | hge
    · exact hlt
    · have h100 : (parseVerification s).confidence = 100 :=
        Nat.le_antisymm hle hge
      have := parseVerification_passed_of_conf s h100
      rw [hf] at this
      exact absurd this (by decide)
  · exact hl

/-- Witness for C10: the implication applied to an all-verified report. -/
theorem C10_confidence_100_implies_passed_witness :
    (parseVerification "Status: VERIFIED").passed = true :=
  (C10_confidence_100_implies_passed "Status: VERIFIED").1 (by decide)

